import Mathlib

/-!
# Verification of the librespot playback worker (`src/player.rs`)

This file gives a shallow embedding of the playback worker of
`src/player.rs` and proves (or refutes) the specification claims about it.

The worker is a single thread running an infinite loop.  Each iteration
(1) tries to receive at most one `PlayerCommand` from the command channel
and applies it, and (2) if the shared status is `kPlayStatusPlay`, pulls
one packet from the vorbis decoder, writes it to the portaudio stream and
refreshes the position snapshot from the decoder's reported time.

The embedding is faithful to the source in the following way:

* `PlayerState`, `PlayerCommand` and the `PlayStatus` enum are transcribed
  directly (a `SpotifyId` is abstracted as a `Nat`; `u32` fields become
  `Nat`, `i64` timestamps become `Int` — the source only ever stores these
  values, it performs no arithmetic on them).
* Collaborator calls (`util::now_ms`, the metadata/key/audio-file fetch
  pipeline, `vorbis::Decoder` construction/seek/tell/packet pull, and the
  portaudio stream write) are modelled by an oracle `IterEnv` supplying
  one iteration's worth of outcomes.  `time_tell` results are given by the
  oracle directly in milliseconds, i.e. already converted the way the
  source converts them (`(tell * 1000.0) as u32`); the floating point
  round-trip itself is not modelled, no claim depends on it.
* Every `.unwrap()` on a failure path in the source is a panic; the
  embedding returns `Except PanicReason _` and stops the trace there,
  which models the worker thread aborting.
* The observable behaviour of an iteration is an event trace `List Event`:
  lock acquisition/release of the shared-state mutex, device
  start/stop/write, the load fetch pipeline, decoder
  construction/discard/seek/tell/packet-pull, and each publication of a
  new `PlayerState` under the lock (`Event.mutate`).  The source contains
  no call that signals the condition variable (`self.state.1` is only ever
  waited on in `Player::wait_update`), so the `Event.condvarNotify`
  constructor exists but is never emitted by the embedding.
-/

/-- The `PlayStatus` enum from `spirc`, as used by `player.rs`. -/
inductive PlayStatus where
  | kPlayStatusStop
  | kPlayStatusLoading
  | kPlayStatusPlay
  | kPlayStatusPause
deriving DecidableEq, Repr, BEq

/-- The mutex-protected shared record `PlayerState` of `player.rs`:
`status`, `position_ms : u32`, `position_measured_at : i64`,
`update_time : i64`. -/
structure PlayerState where
  status : PlayStatus
  position_ms : Nat
  position_measured_at : Int
  update_time : Int
deriving DecidableEq, Repr

/-- The `PlayerCommand` enum: `Load(SpotifyId, bool, u32)`, `Play`,
`Pause`, `Stop`, `Seek(u32)`.  A `SpotifyId` is abstracted as a `Nat`. -/
inductive PlayerCommand where
  | load (id : Nat) (play : Bool) (position : Nat)
  | play
  | pause
  | stop
  | seek (ms : Nat)
deriving DecidableEq, Repr

/-- The stage of the load pipeline at which a `Load` fails
(`track.wait().unwrap()`, `files.first().unwrap()`, the audio-key fetch,
or `vorbis::Decoder::new(...).unwrap()`). -/
inductive LoadError where
  | metadataFailed
  | noFiles
  | keyFailed
  | decoderConstructFailed
deriving DecidableEq, Repr

/-- Reasons for which an `.unwrap()` in the worker loop panics and aborts
the worker thread. -/
inductive PanicReason where
  | noDecoder
  | loadFailed (e : LoadError)
  | seekFailed
  | tellFailed
  | vorbisFatal
  | endOfStream
  | deviceFatal
deriving DecidableEq, Repr

/-- Outcome of `decoder.packets().next()` as seen by the worker:
`Some(Ok(packet))`, `Some(Err(VorbisError::Hole))`, some other
`Some(Err(_))`, or `None` (end of stream, on which the source's
`.unwrap()` panics). -/
inductive PacketOutcome where
  | ok
  | hole
  | fatalVorbis
  | eos
deriving DecidableEq, Repr

/-- Outcome of `stream.write(&packet.data)`: `Ok(_)`,
`Err(PaError::OutputUnderflowed)` (logged, non-fatal), or any other
`Err(e)` (on which the source panics). -/
inductive WriteOutcome where
  | ok
  | underflow
  | fatal
deriving DecidableEq, Repr

/-- One iteration's worth of collaborator outcomes.  `nowA`–`nowD` are the
successive results of the `util::now_ms()` calls made inside the command
branch (the `Load` branch makes four, `Seek` two, `Play`/`Pause`/`Stop`
one); `nowR` is the result of the call made by the per-packet position
refresh.  `decId` identifies the decoder a successful load constructs. -/
structure IterEnv where
  cmd : Option PlayerCommand
  nowA : Int
  nowB : Int
  nowC : Int
  nowD : Int
  nowR : Int
  loadErr : Option LoadError
  decId : Nat
  seekOk : Bool
  tellSeek : Option Nat
  tellRender : Option Nat
  packet : PacketOutcome
  writeRes : WriteOutcome
deriving DecidableEq, Repr

/-- Observable events of one worker iteration, in program order.
`mutate s` records that the worker, holding the shared-state mutex,
rewrote the `PlayerState` record so that observers thereafter see `s`.
`condvarNotify` would record a signal on the condition variable of
`self.state`; the source never performs one, so the embedding never emits
this event. -/
inductive Event where
  | lockAcquire
  | lockRelease
  | devStart
  | devStop
  | devWrite
  | loadFetch
  | decConstruct (id : Nat)
  | decDiscard (id : Nat)
  | decSeek
  | decTell
  | decNext
  | mutate (s : PlayerState)
  | condvarNotify
deriving DecidableEq, Repr

/-- The state installed by `Player::new`: status `kPlayStatusStop`,
`position_ms 0`, `position_measured_at 0`, `update_time = util::now_ms()`
(the startup clock reading `t0`). -/
def initState (t0 : Int) : PlayerState :=
  { status := PlayStatus.kPlayStatusStop
    position_ms := 0
    position_measured_at := 0
    update_time := t0 }

/-- Step (1) of a loop iteration: `match self.commands.try_recv()`.
Returns the emitted event trace together with either the new
`(decoder, shared state)` pair or the panic that aborts the worker.
Transcribed branch by branch from `PlayerInternal::run`. -/
def processCommand (env : IterEnv) (dec : Option Nat) (st : PlayerState) :
    List Event × Except PanicReason (Option Nat × PlayerState) :=
  match env.cmd with
  | none => ([], Except.ok (dec, st))
  | some (PlayerCommand.load _id play position) =>
    -- lock; if Playing, stop the device; publish Loading with the target
    -- position; unlock; run the fetch pipeline.
    let evs1 : List Event :=
      [Event.lockAcquire]
        ++ (if st.status = PlayStatus.kPlayStatusPlay then [Event.devStop] else [])
        ++ [Event.mutate
              { status := PlayStatus.kPlayStatusLoading
                position_ms := position
                position_measured_at := env.nowA
                update_time := env.nowB },
            Event.lockRelease, Event.loadFetch]
    match env.loadErr with
    | some e => (evs1, Except.error (PanicReason.loadFailed e))
    | none =>
      -- `decoder = Some(vorbis::Decoder::new(...).unwrap())`: the new
      -- decoder is constructed first, then the assignment drops the old
      -- one; then `time_seek`.
      let evs2 : List Event :=
        evs1 ++ [Event.decConstruct env.decId]
          ++ (match dec with
              | some old => [Event.decDiscard old]
              | none => [])
          ++ [Event.decSeek]
      if env.seekOk then
        let st2 : PlayerState :=
          { status := if play then PlayStatus.kPlayStatusPlay else PlayStatus.kPlayStatusPause
            position_ms := position
            position_measured_at := env.nowC
            update_time := env.nowD }
        let evs3 : List Event :=
          evs2 ++ [Event.lockAcquire]
            ++ (if play then [Event.devStart] else [])
            ++ [Event.mutate st2, Event.lockRelease]
        (evs3, Except.ok (some env.decId, st2))
      else
        (evs2, Except.error PanicReason.seekFailed)
  | some (PlayerCommand.seek ms) =>
    -- lock first, then `decoder.as_mut().unwrap()`: with no decoder the
    -- unwrap panics while the lock is held.
    match dec with
    | none => ([Event.lockAcquire], Except.error PanicReason.noDecoder)
    | some d =>
      let _ := ms
      if env.seekOk then
        match env.tellSeek with
        | none =>
          ([Event.lockAcquire, Event.decSeek, Event.decTell],
           Except.error PanicReason.tellFailed)
        | some t =>
          let st1 : PlayerState :=
            { st with
                position_ms := t
                position_measured_at := env.nowA
                update_time := env.nowB }
          ([Event.lockAcquire, Event.decSeek, Event.decTell,
            Event.mutate st1, Event.lockRelease],
           Except.ok (some d, st1))
      else
        ([Event.lockAcquire, Event.decSeek], Except.error PanicReason.seekFailed)
  | some PlayerCommand.play =>
    -- lock; set status Playing and update_time; `stream.start()` while
    -- still holding the lock; unlock at the end of the arm.
    let st1 : PlayerState :=
      { st with status := PlayStatus.kPlayStatusPlay, update_time := env.nowA }
    ([Event.lockAcquire, Event.mutate st1, Event.devStart, Event.lockRelease],
     Except.ok (dec, st1))
  | some PlayerCommand.pause =>
    let st1 : PlayerState :=
      { st with status := PlayStatus.kPlayStatusPause, update_time := env.nowA }
    ([Event.lockAcquire, Event.mutate st1, Event.devStop, Event.lockRelease],
     Except.ok (dec, st1))
  | some PlayerCommand.stop =>
    -- lock; if Playing, stop the device; set status Paused; clear the
    -- decoder (`decoder = None`), all under the lock.
    let st1 : PlayerState :=
      { st with status := PlayStatus.kPlayStatusPause, update_time := env.nowA }
    let evs : List Event :=
      [Event.lockAcquire]
        ++ (if st.status = PlayStatus.kPlayStatusPlay then [Event.devStop] else [])
        ++ [Event.mutate st1]
        ++ (match dec with
            | some old => [Event.decDiscard old]
            | none => [])
        ++ [Event.lockRelease]
    (evs, Except.ok (none, st1))

/-- The per-packet position refresh at the end of the decode/render step:
lock, `time_tell` under the lock, write `position_ms` and
`position_measured_at` (status and `update_time` untouched), unlock. -/
def positionRefresh (env : IterEnv) (st : PlayerState) :
    List Event × Except PanicReason PlayerState :=
  match env.tellRender with
  | none => ([Event.lockAcquire, Event.decTell], Except.error PanicReason.tellFailed)
  | some t =>
    let st1 : PlayerState :=
      { st with position_ms := t, position_measured_at := env.nowR }
    ([Event.lockAcquire, Event.decTell, Event.mutate st1, Event.lockRelease],
     Except.ok st1)

/-- Step (2) of a loop iteration: the decode/render step.  The status
check `self.state.0.lock().unwrap().status == kPlayStatusPlay` takes and
releases the lock as a temporary.  If Playing: `decoder.as_mut().unwrap()`
(panic if none), pull one packet, write it to the stream (underflow
logged, other errors panic; a `Hole` is skipped), then refresh the
position snapshot. -/
def renderStep (env : IterEnv) (dec : Option Nat) (st : PlayerState) :
    List Event × Except PanicReason PlayerState :=
  let check : List Event := [Event.lockAcquire, Event.lockRelease]
  if st.status = PlayStatus.kPlayStatusPlay then
    match dec with
    | none => (check, Except.error PanicReason.noDecoder)
    | some _ =>
      let evs1 := check ++ [Event.decNext]
      match env.packet with
      | PacketOutcome.eos => (evs1, Except.error PanicReason.endOfStream)
      | PacketOutcome.fatalVorbis => (evs1, Except.error PanicReason.vorbisFatal)
      | PacketOutcome.hole =>
        let (evs2, r) := positionRefresh env st
        (evs1 ++ evs2, r)
      | PacketOutcome.ok =>
        let evs2 := evs1 ++ [Event.devWrite]
        match env.writeRes with
        | WriteOutcome.fatal => (evs2, Except.error PanicReason.deviceFatal)
        | WriteOutcome.underflow =>
          let (evs3, r) := positionRefresh env st
          (evs2 ++ evs3, r)
        | WriteOutcome.ok =>
          let (evs3, r) := positionRefresh env st
          (evs2 ++ evs3, r)
  else
    (check, Except.ok st)

/-- One full iteration of the worker loop: command intake followed by the
decode/render step.  A panic in either part aborts the iteration (and the
worker) with the events emitted so far. -/
def stepIter (env : IterEnv) (dec : Option Nat) (st : PlayerState) :
    List Event × Except PanicReason (Option Nat × PlayerState) :=
  match processCommand env dec st with
  | (evs1, Except.error e) => (evs1, Except.error e)
  | (evs1, Except.ok (d1, st1)) =>
    match renderStep env d1 st1 with
    | (evs2, Except.error e) => (evs1 ++ evs2, Except.error e)
    | (evs2, Except.ok st2) => (evs1 ++ evs2, Except.ok (d1, st2))

/-- A run of the worker loop over a list of per-iteration environments,
starting from decoder `dec` and shared state `st`.  Stops at the first
panic, keeping the events emitted up to it. -/
def run (envs : List IterEnv) (dec : Option Nat) (st : PlayerState) :
    List Event × Except PanicReason (Option Nat × PlayerState) :=
  match envs with
  | [] => ([], Except.ok (dec, st))
  | env :: rest =>
    match stepIter env dec st with
    | (evs1, Except.error e) => (evs1, Except.error e)
    | (evs1, Except.ok (d1, st1)) =>
      match run rest d1 st1 with
      | (evs2, r) => (evs1 ++ evs2, r)

/-- The states published by the mutations of an event trace, in order. -/
def mutateStates : List Event → List PlayerState
  | [] => []
  | Event.mutate s :: l => s :: mutateStates l
  | _ :: l => mutateStates l

/-- The statuses published by the mutations of an event trace, in order:
the successive values of `status` an observer of the shared state sees. -/
def mutateStatuses (evs : List Event) : List PlayStatus :=
  (mutateStates evs).map PlayerState.status

/-- Whether the shared-state mutex is held after the events `l`, given it
was held (`held`) before them. -/
def lockAfter (held : Bool) : List Event → Bool
  | [] => held
  | Event.lockAcquire :: l => lockAfter true l
  | Event.lockRelease :: l => lockAfter false l
  | _ :: l => lockAfter held l

/-- Pairs each event with whether the shared-state mutex is held at the
moment the event happens. -/
def eventsWithLock (held : Bool) : List Event → List (Event × Bool)
  | [] => []
  | Event.lockAcquire :: l => (Event.lockAcquire, held) :: eventsWithLock true l
  | Event.lockRelease :: l => (Event.lockRelease, held) :: eventsWithLock false l
  | e :: l => (e, held) :: eventsWithLock held l

/-- The blocking device and decoder calls named by the shared-resource
discipline: stream start/stop/write, decoder seek/tell/packet pull. -/
def isBlockingCall : Event → Bool
  | Event.devStart => true
  | Event.devStop => true
  | Event.devWrite => true
  | Event.decSeek => true
  | Event.decTell => true
  | Event.decNext => true
  | _ => false

/-- The load/fetch pipeline (metadata, key, stream open, decoder
construction), the packet pull and the device write. -/
def isPipelineOrWrite : Event → Bool
  | Event.loadFetch => true
  | Event.decConstruct _ => true
  | Event.decNext => true
  | Event.devWrite => true
  | _ => false

/-- `lockDiscipline evs` holds when no blocking device or decoder call of
`evs` happens while the shared-state mutex is held. -/
def lockDiscipline (evs : List Event) : Bool :=
  (eventsWithLock false evs).all fun p => !(p.2 && isBlockingCall p.1)

/-- `chainOK R a l` holds when every consecutive pair of the status trace
`a :: l` is related by `R`: the observed status transitions all satisfy
`R`. -/
def chainOK (R : PlayStatus → PlayStatus → Bool) : PlayStatus → List PlayStatus → Bool
  | _, [] => true
  | a, b :: l => R a b && chainOK R b l

/-- The last status of the trace `a :: l`. -/
def lastStatus (a : PlayStatus) (l : List PlayStatus) : PlayStatus :=
  l.foldl (fun _ b => b) a

/-- The transition table of §4.4 as the claim reads it: `Load` moves any
state to `Loading` and `Loading` to `Playing`/`Paused`; `Play` only from
`Paused`; `Pause` only from `Playing`; `Stop` from `Playing`/`Paused` to
`Paused`; `Seek` (and the per-packet refresh) leave the status
unchanged. -/
def specAllowed (a b : PlayStatus) : Bool :=
  b == PlayStatus.kPlayStatusLoading
    || (a == PlayStatus.kPlayStatusLoading
          && (b == PlayStatus.kPlayStatusPlay || b == PlayStatus.kPlayStatusPause))
    || (a == PlayStatus.kPlayStatusPause && b == PlayStatus.kPlayStatusPlay)
    || (a == PlayStatus.kPlayStatusPlay && b == PlayStatus.kPlayStatusPause)
    || a == b

/-- The transition relation the code actually guarantees: the table of
§4.4 extended by the transitions the unconditional `Play`/`Pause`/`Stop`
branches produce — `Play` targets `Playing` from any state and
`Pause`/`Stop` target `Paused` from any state.  Equivalently: a transition
either keeps the status or targets `Loading`/`Playing`/`Paused`; the
`Stopped` status is never re-entered. -/
def amendedAllowed (a b : PlayStatus) : Bool :=
  !(b == PlayStatus.kPlayStatusStop) || a == b

instance {ε α : Type} [DecidableEq ε] [DecidableEq α] : DecidableEq (Except ε α) :=
  fun x y =>
    match x, y with
    | Except.ok a, Except.ok b =>
      if h : a = b then isTrue (by rw [h])
      else isFalse (by intro hc; cases hc; exact h rfl)
    | Except.error a, Except.error b =>
      if h : a = b then isTrue (by rw [h])
      else isFalse (by intro hc; cases hc; exact h rfl)
    | Except.ok _, Except.error _ => isFalse (by intro hc; cases hc)
    | Except.error _, Except.ok _ => isFalse (by intro hc; cases hc)

/-- A default environment for concrete executions; individual fields are
overridden per scenario. -/
def baseEnv : IterEnv :=
  { cmd := none
    nowA := 0, nowB := 0, nowC := 0, nowD := 0, nowR := 0
    loadErr := none
    decId := 0
    seekOk := true
    tellSeek := some 0
    tellRender := some 0
    packet := PacketOutcome.ok
    writeRes := WriteOutcome.ok }

/-! ## Helper lemmas -/

@[simp]
theorem amendedAllowed_loading (a : PlayStatus) :
    amendedAllowed a PlayStatus.kPlayStatusLoading = true := rfl

@[simp]
theorem amendedAllowed_play (a : PlayStatus) :
    amendedAllowed a PlayStatus.kPlayStatusPlay = true := rfl

@[simp]
theorem amendedAllowed_pause (a : PlayStatus) :
    amendedAllowed a PlayStatus.kPlayStatusPause = true := rfl

@[simp]
theorem amendedAllowed_self (a : PlayStatus) :
    amendedAllowed a a = true := by
  cases a <;> rfl

@[simp]
theorem mutateStates_append (l1 l2 : List Event) :
    mutateStates (l1 ++ l2) = mutateStates l1 ++ mutateStates l2 := by
  induction l1 with
  | nil => rfl
  | cons e l ih => cases e <;> simp [mutateStates, ih]

@[simp]
theorem mutateStatuses_append (l1 l2 : List Event) :
    mutateStatuses (l1 ++ l2) = mutateStatuses l1 ++ mutateStatuses l2 := by
  simp [mutateStatuses]

theorem lastStatus_append (a : PlayStatus) (l1 l2 : List PlayStatus) :
    lastStatus a (l1 ++ l2) = lastStatus (lastStatus a l1) l2 := by
  simp [lastStatus, List.foldl_append]

theorem chainOK_append (R : PlayStatus → PlayStatus → Bool) (a : PlayStatus)
    (l1 l2 : List PlayStatus) :
    chainOK R a (l1 ++ l2) = (chainOK R a l1 && chainOK R (lastStatus a l1) l2) := by
  induction l1 generalizing a with
  | nil => simp [chainOK, lastStatus]
  | cons b l ih =>
    simp only [List.cons_append, chainOK, lastStatus, List.foldl_cons]
    cases R a b <;> simp [ih b, lastStatus]

theorem eventsWithLock_append (held : Bool) (l1 l2 : List Event) :
    eventsWithLock held (l1 ++ l2)
      = eventsWithLock held l1 ++ eventsWithLock (lockAfter held l1) l2 := by
  induction l1 generalizing held with
  | nil => simp [eventsWithLock, lockAfter]
  | cons e l ih => cases e <;> simp [eventsWithLock, lockAfter, ih]

/-! ### Per-branch facts about the command intake step -/

theorem processCommand_chain (env : IterEnv) (dec : Option Nat) (st : PlayerState) :
    chainOK amendedAllowed st.status (mutateStatuses (processCommand env dec st).1) = true := by
  rcases henv : env.cmd with _ | cmd
  · simp [processCommand, henv, mutateStatuses, mutateStates, chainOK]
  · cases cmd with
    | load id play position =>
      rcases herr : env.loadErr with _ | e
      · by_cases hseek : env.seekOk <;> cases dec <;> cases play <;>
          by_cases hst : st.status = PlayStatus.kPlayStatusPlay <;>
          simp [processCommand, henv, herr, hseek, hst, mutateStatuses, mutateStates, chainOK]
      · by_cases hst : st.status = PlayStatus.kPlayStatusPlay <;>
          simp [processCommand, henv, herr, hst, mutateStatuses, mutateStates, chainOK]
    | play =>
      simp [processCommand, henv, mutateStatuses, mutateStates, chainOK]
    | pause =>
      simp [processCommand, henv, mutateStatuses, mutateStates, chainOK]
    | stop =>
      cases dec <;> by_cases hst : st.status = PlayStatus.kPlayStatusPlay <;>
        simp [processCommand, henv, hst, mutateStatuses, mutateStates, chainOK]
    | seek ms =>
      cases dec with
      | none => simp [processCommand, henv, mutateStatuses, mutateStates, chainOK]
      | some d =>
        by_cases hseek : env.seekOk
        · rcases htell : env.tellSeek with _ | t <;>
            simp [processCommand, henv, hseek, htell, mutateStatuses, mutateStates, chainOK]
        · simp [processCommand, henv, hseek, mutateStatuses, mutateStates, chainOK]

theorem processCommand_lastStatus (env : IterEnv) (dec : Option Nat) (st : PlayerState)
    (d1 : Option Nat) (st1 : PlayerState)
    (h : (processCommand env dec st).2 = Except.ok (d1, st1)) :
    lastStatus st.status (mutateStatuses (processCommand env dec st).1) = st1.status := by
  rcases henv : env.cmd with _ | cmd
  · simp_all [processCommand, henv, mutateStatuses, mutateStates, lastStatus]
  · cases cmd with
    | load id play position =>
      rcases herr : env.loadErr with _ | e
      · by_cases hseek : env.seekOk <;> cases dec <;> cases play <;>
          by_cases hst : st.status = PlayStatus.kPlayStatusPlay <;>
          simp_all [processCommand, henv, herr, mutateStatuses, mutateStates, lastStatus]
      · by_cases hst : st.status = PlayStatus.kPlayStatusPlay <;>
          simp_all [processCommand, henv, herr, mutateStatuses, mutateStates, lastStatus]
    | play =>
      simp_all [processCommand, henv, mutateStatuses, mutateStates, lastStatus]
    | pause =>
      simp_all [processCommand, henv, mutateStatuses, mutateStates, lastStatus]
    | stop =>
      cases dec <;> by_cases hst : st.status = PlayStatus.kPlayStatusPlay <;>
        simp_all [processCommand, henv, mutateStatuses, mutateStates, lastStatus]
    | seek ms =>
      cases dec with
      | none => simp_all [processCommand, henv]
      | some d =>
        by_cases hseek : env.seekOk
        · rcases htell : env.tellSeek with _ | t <;>
            simp_all [processCommand, henv, htell, mutateStatuses, mutateStates, lastStatus]
        · simp_all [processCommand, henv]

theorem processCommand_no_notify (env : IterEnv) (dec : Option Nat) (st : PlayerState) :
    Event.condvarNotify ∉ (processCommand env dec st).1 := by
  rcases henv : env.cmd with _ | cmd
  · simp [processCommand, henv]
  · cases cmd with
    | load id play position =>
      rcases herr : env.loadErr with _ | e
      · by_cases hseek : env.seekOk <;> cases dec <;> cases play <;>
          by_cases hst : st.status = PlayStatus.kPlayStatusPlay <;>
          simp [processCommand, henv, herr, hseek, hst]
      · by_cases hst : st.status = PlayStatus.kPlayStatusPlay <;>
          simp [processCommand, henv, herr, hst]
    | play => simp [processCommand, henv]
    | pause => simp [processCommand, henv]
    | stop =>
      cases dec <;> by_cases hst : st.status = PlayStatus.kPlayStatusPlay <;>
        simp [processCommand, henv, hst]
    | seek ms =>
      cases dec with
      | none => simp [processCommand, henv]
      | some d =>
        by_cases hseek : env.seekOk
        · rcases htell : env.tellSeek with _ | t <;>
            simp [processCommand, henv, hseek, htell]
        · simp [processCommand, henv, hseek]

theorem processCommand_lockAfter (env : IterEnv) (dec : Option Nat) (st : PlayerState)
    (p : Option Nat × PlayerState)
    (h : (processCommand env dec st).2 = Except.ok p) :
    lockAfter false (processCommand env dec st).1 = false := by
  rcases henv : env.cmd with _ | cmd
  · simp_all [processCommand, henv, lockAfter]
  · cases cmd with
    | load id play position =>
      rcases herr : env.loadErr with _ | e
      · by_cases hseek : env.seekOk <;> cases dec <;> cases play <;>
          by_cases hst : st.status = PlayStatus.kPlayStatusPlay <;>
          simp_all [processCommand, henv, herr, lockAfter]
      · by_cases hst : st.status = PlayStatus.kPlayStatusPlay <;>
          simp_all [processCommand, henv, herr, lockAfter]
    | play => simp_all [processCommand, henv, lockAfter]
    | pause => simp_all [processCommand, henv, lockAfter]
    | stop =>
      cases dec <;> by_cases hst : st.status = PlayStatus.kPlayStatusPlay <;>
        simp_all [processCommand, henv, lockAfter]
    | seek ms =>
      cases dec with
      | none => simp_all [processCommand, henv]
      | some d =>
        by_cases hseek : env.seekOk
        · rcases htell : env.tellSeek with _ | t <;>
            simp_all [processCommand, henv, htell, lockAfter]
        · simp_all [processCommand, henv]

theorem processCommand_pipeline_unlocked (env : IterEnv) (dec : Option Nat) (st : PlayerState) :
    ((eventsWithLock false (processCommand env dec st).1).all
      fun p => !(p.2 && isPipelineOrWrite p.1)) = true := by
  rcases henv : env.cmd with _ | cmd
  · simp [processCommand, henv, eventsWithLock]
  · cases cmd with
    | load id play position =>
      rcases herr : env.loadErr with _ | e
      · by_cases hseek : env.seekOk <;> cases dec <;> cases play <;>
          by_cases hst : st.status = PlayStatus.kPlayStatusPlay <;>
          simp [processCommand, henv, herr, hseek, hst, eventsWithLock, isPipelineOrWrite]
      · by_cases hst : st.status = PlayStatus.kPlayStatusPlay <;>
          simp [processCommand, henv, herr, hst, eventsWithLock, isPipelineOrWrite]
    | play => simp [processCommand, henv, eventsWithLock, isPipelineOrWrite]
    | pause => simp [processCommand, henv, eventsWithLock, isPipelineOrWrite]
    | stop =>
      cases dec <;> by_cases hst : st.status = PlayStatus.kPlayStatusPlay <;>
        simp [processCommand, henv, hst, eventsWithLock, isPipelineOrWrite]
    | seek ms =>
      cases dec with
      | none => simp [processCommand, henv, eventsWithLock, isPipelineOrWrite]
      | some d =>
        by_cases hseek : env.seekOk
        · rcases htell : env.tellSeek with _ | t <;>
            simp [processCommand, henv, hseek, htell, eventsWithLock, isPipelineOrWrite]
        · simp [processCommand, henv, hseek, eventsWithLock, isPipelineOrWrite]

/-! ### Per-branch facts about the decode/render step -/

theorem renderStep_chain (env : IterEnv) (dec : Option Nat) (st : PlayerState) :
    chainOK amendedAllowed st.status (mutateStatuses (renderStep env dec st).1) = true := by
  by_cases hst : st.status = PlayStatus.kPlayStatusPlay
  · cases dec with
    | none => simp [renderStep, hst, mutateStatuses, mutateStates, chainOK]
    | some d =>
      cases hpk : env.packet <;> cases hwr : env.writeRes <;>
        rcases htell : env.tellRender with _ | t <;>
        simp [renderStep, positionRefresh, hst, hpk, hwr, htell,
          mutateStatuses, mutateStates, chainOK]
  · simp [renderStep, hst, mutateStatuses, mutateStates, chainOK]

theorem renderStep_lastStatus (env : IterEnv) (dec : Option Nat) (st st1 : PlayerState)
    (h : (renderStep env dec st).2 = Except.ok st1) :
    lastStatus st.status (mutateStatuses (renderStep env dec st).1) = st1.status := by
  by_cases hst : st.status = PlayStatus.kPlayStatusPlay
  · cases dec with
    | none => simp_all [renderStep, hst]
    | some d =>
      cases hpk : env.packet <;> cases hwr : env.writeRes <;>
        rcases htell : env.tellRender with _ | t <;>
        simp_all [renderStep, positionRefresh, mutateStatuses, mutateStates, lastStatus]
  · simp_all [renderStep, hst, mutateStatuses, mutateStates, lastStatus]

theorem renderStep_no_notify (env : IterEnv) (dec : Option Nat) (st : PlayerState) :
    Event.condvarNotify ∉ (renderStep env dec st).1 := by
  by_cases hst : st.status = PlayStatus.kPlayStatusPlay
  · cases dec with
    | none => simp [renderStep, hst]
    | some d =>
      cases hpk : env.packet <;> cases hwr : env.writeRes <;>
        rcases htell : env.tellRender with _ | t <;>
        simp [renderStep, positionRefresh, hst, hpk, hwr, htell]
  · simp [renderStep, hst]

theorem renderStep_lockAfter (env : IterEnv) (dec : Option Nat) (st st1 : PlayerState)
    (h : (renderStep env dec st).2 = Except.ok st1) :
    lockAfter false (renderStep env dec st).1 = false := by
  by_cases hst : st.status = PlayStatus.kPlayStatusPlay
  · cases dec with
    | none => simp_all [renderStep, hst]
    | some d =>
      cases hpk : env.packet <;> cases hwr : env.writeRes <;>
        rcases htell : env.tellRender with _ | t <;>
        simp_all [renderStep, positionRefresh, lockAfter]
  · simp_all [renderStep, hst, lockAfter]

theorem renderStep_pipeline_unlocked (env : IterEnv) (dec : Option Nat) (st : PlayerState) :
    ((eventsWithLock false (renderStep env dec st).1).all
      fun p => !(p.2 && isPipelineOrWrite p.1)) = true := by
  by_cases hst : st.status = PlayStatus.kPlayStatusPlay
  · cases dec with
    | none => simp [renderStep, hst, eventsWithLock, isPipelineOrWrite]
    | some d =>
      cases hpk : env.packet <;> cases hwr : env.writeRes <;>
        rcases htell : env.tellRender with _ | t <;>
        simp [renderStep, positionRefresh, hst, hpk, hwr, htell,
          eventsWithLock, isPipelineOrWrite]
  · simp [renderStep, hst, eventsWithLock, isPipelineOrWrite]

/-! ### Per-iteration facts -/

theorem stepIter_chain (env : IterEnv) (dec : Option Nat) (st : PlayerState) :
    chainOK amendedAllowed st.status (mutateStatuses (stepIter env dec st).1) = true := by
  rcases hpc : processCommand env dec st with ⟨evs1, r1⟩
  have h1 := processCommand_chain env dec st
  rw [hpc] at h1
  cases r1 with
  | error e => simpa [stepIter, hpc] using h1
  | ok p =>
    rcases p with ⟨d1, st1⟩
    have hlast := processCommand_lastStatus env dec st d1 st1 (by rw [hpc])
    rw [hpc] at hlast
    rcases hrd : renderStep env d1 st1 with ⟨evs2, r2⟩
    have h2 := renderStep_chain env d1 st1
    rw [hrd] at h2
    cases r2 <;>
      simp_all [stepIter, hpc, hrd, chainOK_append]

theorem stepIter_lastStatus (env : IterEnv) (dec : Option Nat) (st : PlayerState)
    (d1 : Option Nat) (st1 : PlayerState)
    (h : (stepIter env dec st).2 = Except.ok (d1, st1)) :
    lastStatus st.status (mutateStatuses (stepIter env dec st).1) = st1.status := by
  rcases hpc : processCommand env dec st with ⟨evs1, r1⟩
  cases r1 with
  | error e => simp_all [stepIter, hpc]
  | ok p =>
    rcases p with ⟨d2, st2⟩
    have hlast1 := processCommand_lastStatus env dec st d2 st2 (by rw [hpc])
    rw [hpc] at hlast1
    rcases hrd : renderStep env d2 st2 with ⟨evs2, r2⟩
    cases r2 with
    | error e => simp_all [stepIter, hpc, hrd]
    | ok st3 =>
      have hlast2 := renderStep_lastStatus env d2 st2 st3 (by rw [hrd])
      rw [hrd] at hlast2
      have : st3 = st1 := by simp_all [stepIter, hpc, hrd]
      subst this
      simp_all [stepIter, hpc, hrd, lastStatus_append]

theorem stepIter_no_notify (env : IterEnv) (dec : Option Nat) (st : PlayerState) :
    Event.condvarNotify ∉ (stepIter env dec st).1 := by
  rcases hpc : processCommand env dec st with ⟨evs1, r1⟩
  have h1 := processCommand_no_notify env dec st
  rw [hpc] at h1
  cases r1 with
  | error e => simpa [stepIter, hpc] using h1
  | ok p =>
    rcases p with ⟨d1, st1⟩
    have h2 := renderStep_no_notify env d1 st1
    rcases hrd : renderStep env d1 st1 with ⟨evs2, r2⟩
    rw [hrd] at h2
    cases r2 <;> simp_all [stepIter, hpc, hrd]

theorem stepIter_lockAfter (env : IterEnv) (dec : Option Nat) (st : PlayerState)
    (p : Option Nat × PlayerState)
    (h : (stepIter env dec st).2 = Except.ok p) :
    lockAfter false (stepIter env dec st).1 = false := by
  rcases hpc : processCommand env dec st with ⟨evs1, r1⟩
  cases r1 with
  | error e => simp_all [stepIter, hpc]
  | ok q =>
    rcases q with ⟨d1, st1⟩
    have ha := processCommand_lockAfter env dec st (d1, st1) (by rw [hpc])
    rw [hpc] at ha
    rcases hrd : renderStep env d1 st1 with ⟨evs2, r2⟩
    cases r2 with
    | error e => simp_all [stepIter, hpc, hrd]
    | ok st2 =>
      have hb := renderStep_lockAfter env d1 st1 st2 (by rw [hrd])
      rw [hrd] at hb
      have happ : lockAfter false (evs1 ++ evs2) = false := by
        have : ∀ l1 l2 h0, lockAfter h0 (l1 ++ l2) = lockAfter (lockAfter h0 l1) l2 := by
          intro l1
          induction l1 with
          | nil => intro l2 h0; simp [lockAfter]
          | cons e l ih => intro l2 h0; cases e <;> simp [lockAfter, ih]
        rw [this, ha, hb]
      simp_all [stepIter, hpc, hrd]

theorem stepIter_pipeline_unlocked (env : IterEnv) (dec : Option Nat) (st : PlayerState) :
    ((eventsWithLock false (stepIter env dec st).1).all
      fun p => !(p.2 && isPipelineOrWrite p.1)) = true := by
  rcases hpc : processCommand env dec st with ⟨evs1, r1⟩
  have h1 := processCommand_pipeline_unlocked env dec st
  rw [hpc] at h1
  cases r1 with
  | error e => simpa [stepIter, hpc] using h1
  | ok p =>
    rcases p with ⟨d1, st1⟩
    have ha := processCommand_lockAfter env dec st (d1, st1) (by rw [hpc])
    rw [hpc] at ha
    have h2 := renderStep_pipeline_unlocked env d1 st1
    rcases hrd : renderStep env d1 st1 with ⟨evs2, r2⟩
    rw [hrd] at h2
    cases r2 <;>
      simp_all [stepIter, hpc, hrd, eventsWithLock_append]

theorem take_two_get (l : List Event) (a b : Event) (h : l.take 2 = [a, b]) :
    l.get? 0 = some a ∧ l.get? 1 = some b := by
  rcases l with _ | ⟨x, _ | ⟨y, l⟩⟩ <;> simp_all [List.take]

/-! ## The claims -/

/-- **C1, counterexample.**  The claim says the observed status transitions
are exactly those of the table of §4.4, so that `Pause` is applied only
from `Playing`.  But the `Pause` branch of the worker sets the status to
`kPlayStatusPause` unconditionally: a single `Pause` command processed in
the initial `Stopped` state publishes the transition
`Stopped → Paused`, which the table forbids. -/
theorem pause_from_stopped_breaks_table :
    mutateStatuses (run [{ baseEnv with cmd := some PlayerCommand.pause }] none (initState 0)).1
        = [PlayStatus.kPlayStatusPause]
      ∧ chainOK specAllowed (initState 0).status
          (mutateStatuses
            (run [{ baseEnv with cmd := some PlayerCommand.pause }] none (initState 0)).1) = false
      ∧ specAllowed PlayStatus.kPlayStatusStop PlayStatus.kPlayStatusPause = false := by
  decide

/-- **C1, amended.**  For every command sequence, every observed status
transition is either one of the table of §4.4 or one of the transitions
produced by the unconditional `Play`/`Pause`/`Stop` branches, which set
their target status from *any* state (`Play` targets `Playing`,
`Pause`/`Stop` target `Paused`, without checking the current status).
Together these are exactly the transitions that either keep the status or
target `Loading`/`Playing`/`Paused`: the `Stopped` status is never
re-entered (`amendedAllowed`). -/
theorem worker_status_transitions_amended (envs : List IterEnv) (dec : Option Nat)
    (st : PlayerState) :
    chainOK amendedAllowed st.status (mutateStatuses (run envs dec st).1) = true := by
  induction envs generalizing dec st with
  | nil => simp [run, mutateStatuses, mutateStates, chainOK]
  | cons env rest ih =>
    rcases hsi : stepIter env dec st with ⟨evs1, r1⟩
    have h1 := stepIter_chain env dec st
    rw [hsi] at h1
    cases r1 with
    | error e => simpa [run, hsi] using h1
    | ok p =>
      rcases p with ⟨d1, st1⟩
      have hlast := stepIter_lastStatus env dec st d1 st1 (by rw [hsi])
      rw [hsi] at hlast
      have h2 := ih d1 st1
      rcases hrun : run rest d1 st1 with ⟨evs2, r2⟩
      rw [hrun] at h2
      simp_all [run, hsi, hrun, chainOK_append]

/-- **C2.**  The claim says every mutation of the shared `PlayerState`
signals the condition variable.  It does not: `PlayerInternal::run` never
calls `notify_one`/`notify_all` on `self.state.1` (the condition variable
is only ever waited on, in `Player::wait_update`), so *no* mutation is
ever signalled: no run emits a `condvarNotify` event, while e.g. a single
`Pause` command does publish a mutation.  A waiter blocked in
`wait_update` is never woken by the worker. -/
theorem worker_mutates_without_condvar_notify (envs : List IterEnv) (dec : Option Nat)
    (st : PlayerState) :
    Event.condvarNotify ∉ (run envs dec st).1
      ∧ mutateStates
          (run [{ baseEnv with cmd := some PlayerCommand.pause }] none (initState 0)).1 ≠ [] := by
  constructor
  · induction envs generalizing dec st with
    | nil => simp [run]
    | cons env rest ih =>
      rcases hsi : stepIter env dec st with ⟨evs1, r1⟩
      have h1 := stepIter_no_notify env dec st
      rw [hsi] at h1
      cases r1 with
      | error e => simpa [run, hsi] using h1
      | ok p =>
        rcases p with ⟨d1, st1⟩
        rcases hrun : run rest d1 st1 with ⟨evs2, r2⟩
        have h2 := ih d1 st1
        rw [hrun] at h2
        simp_all [run, hsi, hrun]
  · decide

/-- **C3.**  The claim says `Play`/`Pause`/`Seek`/`Stop` with no decoder
session are rejected with a reported error and that a `Stop` with no
prior `Load` leaves the status `Stopped`.  The code instead: `Seek`
panics (`decoder.as_mut().unwrap()` on `None`) while holding the lock;
`Play` sets the status to `Playing` and then panics in the decode/render
step; and `Stop` silently sets the status to `Paused` — not `Stopped` —
reporting nothing. -/
theorem command_without_decoder_session :
    (stepIter { baseEnv with cmd := some (PlayerCommand.seek 1000) } none (initState 0)).2
        = Except.error PanicReason.noDecoder
      ∧ (stepIter { baseEnv with cmd := some PlayerCommand.play } none (initState 0)).2
        = Except.error PanicReason.noDecoder
      ∧ (stepIter { baseEnv with cmd := some PlayerCommand.stop } none (initState 0)).2
        = Except.ok (none,
            { status := PlayStatus.kPlayStatusPause, position_ms := 0,
              position_measured_at := 0, update_time := 0 }) := by
  decide

/-- **C4.**  The claim says no worker-internal error escapes as an
uncaught fault and every error path leaves the shared state in a terminal
stopped/failed status.  The code instead panics (`.unwrap()`), aborting
the worker: a failed metadata resolution during `Load` kills the worker
with the shared state left at the transient `Loading` status, and a fatal
device or decoder error during the render step kills it with the status
left at `Playing` (no mutation is published at all). -/
theorem worker_error_paths_panic :
    ((stepIter { baseEnv with
                 cmd := some (PlayerCommand.load 1 true 0)
                 loadErr := some LoadError.metadataFailed } none (initState 0)).2
        = Except.error (PanicReason.loadFailed LoadError.metadataFailed)
      ∧ mutateStatuses (stepIter { baseEnv with
                 cmd := some (PlayerCommand.load 1 true 0)
                 loadErr := some LoadError.metadataFailed } none (initState 0)).1
        = [PlayStatus.kPlayStatusLoading])
      ∧ ((stepIter { baseEnv with writeRes := WriteOutcome.fatal } (some 5)
            { status := PlayStatus.kPlayStatusPlay, position_ms := 0,
              position_measured_at := 0, update_time := 0 }).2
          = Except.error PanicReason.deviceFatal
        ∧ mutateStatuses (stepIter { baseEnv with writeRes := WriteOutcome.fatal } (some 5)
            { status := PlayStatus.kPlayStatusPlay, position_ms := 0,
              position_measured_at := 0, update_time := 0 }).1 = []
        ∧ (stepIter { baseEnv with packet := PacketOutcome.fatalVorbis } (some 5)
            { status := PlayStatus.kPlayStatusPlay, position_ms := 0,
              position_measured_at := 0, update_time := 0 }).2
          = Except.error PanicReason.vorbisFatal) := by
  decide

/-- **C5.**  A `Load(id, autoplay, start_ms)` command whose fetch pipeline
and decoder seek succeed leaves the shared state with `position_ms` equal
to the requested start position, status `Playing` (with the device
started) when `autoplay` holds and status `Paused` (with the device never
started during the load) otherwise; the load itself writes no bytes to
the device, and while the status is `Paused` the decode/render step
writes none either (so none are written until a subsequent `Play`). -/
theorem load_success_final_state (env0 : IterEnv) (id pos : Nat) (auto : Bool)
    (dec : Option Nat) (st : PlayerState) :
    (processCommand { env0 with
          cmd := some (PlayerCommand.load id auto pos)
          loadErr := none
          seekOk := true } dec st).2
        = Except.ok (some env0.decId,
            { status := if auto then PlayStatus.kPlayStatusPlay else PlayStatus.kPlayStatusPause
              position_ms := pos
              position_measured_at := env0.nowC
              update_time := env0.nowD })
      ∧ ((Event.devStart ∈ (processCommand { env0 with
            cmd := some (PlayerCommand.load id auto pos)
            loadErr := none
            seekOk := true } dec st).1) ↔ auto = true)
      ∧ Event.devWrite ∉ (processCommand { env0 with
            cmd := some (PlayerCommand.load id auto pos)
            loadErr := none
            seekOk := true } dec st).1
      ∧ ∀ (env2 : IterEnv) (dec2 : Option Nat) (st2 : PlayerState),
          Event.devWrite ∉ (renderStep env2 dec2
            { st2 with status := PlayStatus.kPlayStatusPause }).1 := by
  refine ⟨?_, ?_, ?_, ?_⟩
  · cases auto <;> cases dec <;> by_cases hst : st.status = PlayStatus.kPlayStatusPlay <;>
      simp [processCommand, hst]
  · cases auto <;> cases dec <;> by_cases hst : st.status = PlayStatus.kPlayStatusPlay <;>
      simp [processCommand, hst]
  · cases auto <;> cases dec <;> by_cases hst : st.status = PlayStatus.kPlayStatusPlay <;>
      simp [processCommand, hst]
  · intro env2 dec2 st2
    simp [renderStep]

/-- **C6.**  A `Stop` command processed while a decoder session exists
(status `Playing` or `Paused`, encoded by `wasPlaying`) sets the status
to `Paused`, clears the decoder session to `none` (the old decoder `k` is
discarded), and invokes the device's `stop()` if and only if the status
was `Playing`; the position fields are untouched. -/
theorem stop_with_session_clears_decoder (env0 : IterEnv) (k : Nat)
    (st0 : PlayerState) (wasPlaying : Bool) :
    (processCommand { env0 with cmd := some PlayerCommand.stop } (some k)
          { st0 with status := if wasPlaying then PlayStatus.kPlayStatusPlay
                               else PlayStatus.kPlayStatusPause }).2
        = Except.ok (none,
            { st0 with status := PlayStatus.kPlayStatusPause, update_time := env0.nowA })
      ∧ ((Event.devStop ∈ (processCommand { env0 with cmd := some PlayerCommand.stop } (some k)
            { st0 with status := if wasPlaying then PlayStatus.kPlayStatusPlay
                                 else PlayStatus.kPlayStatusPause }).1) ↔ wasPlaying = true)
      ∧ Event.decDiscard k ∈ (processCommand { env0 with cmd := some PlayerCommand.stop } (some k)
            { st0 with status := if wasPlaying then PlayStatus.kPlayStatusPlay
                                 else PlayStatus.kPlayStatusPause }).1 := by
  cases wasPlaying <;> refine ⟨?_, ?_, ?_⟩ <;> simp [processCommand]

/-- **C7.**  When a `Load` command is processed while the status is
`Playing`, the worker's first two events are acquiring the lock and
stopping the device: the device `stop()` happens before the old decoder
session is discarded and before the new decoder is constructed (every
`decConstruct`/`decDiscard` event of the branch occurs at a position
`≥ 2`, while `devStop` is at position `1`).  As the worker is the only
thread touching decoder and device, no two decoder sessions ever write
to the device concurrently. -/
theorem load_while_playing_stops_device_first (env0 : IterEnv) (id pos : Nat)
    (auto : Bool) (dec : Option Nat) (st0 : PlayerState) :
    (processCommand { env0 with cmd := some (PlayerCommand.load id auto pos) } dec
          { st0 with status := PlayStatus.kPlayStatusPlay }).1.take 2
        = [Event.lockAcquire, Event.devStop]
      ∧ ∀ n k1,
          ((processCommand { env0 with cmd := some (PlayerCommand.load id auto pos) } dec
              { st0 with status := PlayStatus.kPlayStatusPlay }).1.get? n
              = some (Event.decConstruct k1)
            ∨ (processCommand { env0 with cmd := some (PlayerCommand.load id auto pos) } dec
              { st0 with status := PlayStatus.kPlayStatusPlay }).1.get? n
              = some (Event.decDiscard k1)) → 2 ≤ n := by
  have htake : (processCommand { env0 with cmd := some (PlayerCommand.load id auto pos) } dec
      { st0 with status := PlayStatus.kPlayStatusPlay }).1.take 2
        = [Event.lockAcquire, Event.devStop] := by
    rcases herr : env0.loadErr with _ | e
    · by_cases hseek : env0.seekOk <;> cases dec <;> cases auto <;>
        simp [processCommand, herr, hseek]
    · simp [processCommand, herr]
  refine ⟨htake, ?_⟩
  intro n k1 h
  have hget := take_two_get _ _ _ htake
  rcases n with _ | _ | n
  · rcases h with h | h <;> rw [hget.1] at h <;> simp at h
  · rcases h with h | h <;> rw [hget.2] at h <;> simp at h
  · omega

/-- **C8, counterexample.**  The claim says the shared-state mutex is
never held across a blocking device or decoder call.  But the `Pause`
branch calls `stream.stop()` while the `MutexGuard` is still live (it is
dropped only at the end of the match arm) — as do `Play`
(`stream.start()`), `Stop`, the initial device stop of `Load`, `Seek`
(`time_seek`/`time_tell`) and the per-packet position refresh
(`time_tell`).  A single `Pause` command already violates the
discipline. -/
theorem lock_held_across_blocking_call :
    lockDiscipline
        (run [{ baseEnv with cmd := some PlayerCommand.pause }] none (initState 0)).1
      = false := by
  decide

/-- **C8, amended.**  The mutex is released across the blocking load
pipeline (metadata/key/stream fetch and decoder construction) and across
the render step's packet pull and device write — but it *is* held across
the device `start()`/`stop()` calls of the `Play`/`Pause`/`Stop`/`Load`
branches and across the decoder `seek`/`tell` calls of the `Seek` branch
and the position refresh.  Formally: in every run, no `loadFetch`,
`decConstruct`, `decNext` or `devWrite` event ever happens while the
mutex is held. -/
theorem lock_free_pipeline_and_write (envs : List IterEnv) (dec : Option Nat)
    (st : PlayerState) :
    ((eventsWithLock false (run envs dec st).1).all
      fun p => !(p.2 && isPipelineOrWrite p.1)) = true := by
  induction envs generalizing dec st with
  | nil => simp [run, eventsWithLock]
  | cons env rest ih =>
    rcases hsi : stepIter env dec st with ⟨evs1, r1⟩
    have h1 := stepIter_pipeline_unlocked env dec st
    rw [hsi] at h1
    cases r1 with
    | error e => simpa [run, hsi] using h1
    | ok p =>
      rcases p with ⟨d1, st1⟩
      have ha := stepIter_lockAfter env dec st (d1, st1) (by rw [hsi])
      rw [hsi] at ha
      have h2 := ih d1 st1
      rcases hrun : run rest d1 st1 with ⟨evs2, r2⟩
      rw [hrun] at h2
      simp_all [run, hsi, hrun, eventsWithLock_append]

/-- **C9.**  The per-packet position refresh performed after a device
write (or after a skipped bitstream hole, `gap`, or a logged underflow,
`uf`) while the status is `Playing` updates only `position_ms` (to the
decoder's reported time `t`) and `position_measured_at` (to the current
clock reading); the `status` and `update_time` fields are left exactly as
they were, both in the resulting shared state and in the single state
published during the step. -/
theorem position_refresh_touches_only_position (env0 : IterEnv) (k t : Nat)
    (st0 : PlayerState) (gap uf : Bool) :
    (renderStep { env0 with
          packet := if gap then PacketOutcome.hole else PacketOutcome.ok
          writeRes := if uf then WriteOutcome.underflow else WriteOutcome.ok
          tellRender := some t }
        (some k) { st0 with status := PlayStatus.kPlayStatusPlay }).2
        = Except.ok { st0 with
            status := PlayStatus.kPlayStatusPlay
            position_ms := t
            position_measured_at := env0.nowR }
      ∧ mutateStates (renderStep { env0 with
            packet := if gap then PacketOutcome.hole else PacketOutcome.ok
            writeRes := if uf then WriteOutcome.underflow else WriteOutcome.ok
            tellRender := some t }
          (some k) { st0 with status := PlayStatus.kPlayStatusPlay }).1
        = [{ st0 with
              status := PlayStatus.kPlayStatusPlay
              position_ms := t
              position_measured_at := env0.nowR }] := by
  cases gap <;> cases uf <;>
    refine ⟨?_, ?_⟩ <;> simp [renderStep, positionRefresh, mutateStates]

/-- **C10.**  While a `Load(id, autoplay, pos)` command is being
processed, the worker first publishes — before the fetch pipeline runs
and before the decoder is constructed — an intermediate shared state with
status `Loading`, `position_ms` already equal to the requested start
position and `position_measured_at`/`update_time` set to the current
clock readings: the branch's first events are exactly the lock
acquisition, the device stop if the status was `Playing`, that
publication, the unlock, and only then the fetch. -/
theorem load_publishes_loading_state (env0 : IterEnv) (id pos : Nat) (auto : Bool)
    (dec : Option Nat) (st : PlayerState) :
    (mutateStates (processCommand { env0 with cmd := some (PlayerCommand.load id auto pos) }
          dec st).1).head?
        = some { status := PlayStatus.kPlayStatusLoading, position_ms := pos,
                 position_measured_at := env0.nowA, update_time := env0.nowB }
      ∧ (processCommand { env0 with cmd := some (PlayerCommand.load id auto pos) } dec st).1.take
          (if st.status = PlayStatus.kPlayStatusPlay then 5 else 4)
        = [Event.lockAcquire]
            ++ (if st.status = PlayStatus.kPlayStatusPlay then [Event.devStop] else [])
            ++ [Event.mutate { status := PlayStatus.kPlayStatusLoading, position_ms := pos,
                               position_measured_at := env0.nowA, update_time := env0.nowB },
                Event.lockRelease, Event.loadFetch] := by
  refine ⟨?_, ?_⟩ <;>
    (rcases herr : env0.loadErr with _ | e
     · by_cases hseek : env0.seekOk <;> cases dec <;> cases auto <;>
         by_cases hst : st.status = PlayStatus.kPlayStatusPlay <;>
         simp [processCommand, herr, hseek, hst, mutateStates]
     · by_cases hst : st.status = PlayStatus.kPlayStatusPlay <;>
         simp [processCommand, herr, hst, mutateStates])
